import Mathlib

/-!
Verification of the chart-data pipeline of `streamlit_app.py`.

The embedding models the two core functions of the source:
`calculate_pivot_points` (lines 33-51) and `load_chart_data`
(lines 53-97).  Prices are modelled as rationals; `round(x, 2)`
(Python's builtin, banker's rounding) is modelled by
`roundHalfEven`/`round2`; the pandas DataFrame of daily bars is
modelled as a `List Bar`; the `yf.download` call that may raise is
modelled as an `Except String (List Bar)` argument, and the
`try/except` wrapper of `load_chart_data` as the corresponding
`Option`-returning total function (every caught exception becomes
`none`, matching the all-`None` quintuple returned by the source).
-/

/-- A calendar date, the `%Y-%m-%d` components of a pandas timestamp. -/
structure Date where
  year : Nat
  month : Nat
  day : Nat
deriving DecidableEq, Inhabited

/-- Chronological order on dates (lexicographic on year, month, day). -/
def dateLe (a b : Date) : Prop :=
  a.year < b.year ∨
    (a.year = b.year ∧
      (a.month < b.month ∨ (a.month = b.month ∧ a.day ≤ b.day)))

instance (a b : Date) : Decidable (dateLe a b) := by
  unfold dateLe; infer_instance

/-- One row of the DataFrame returned by `yf.download` after
`reset_index`: columns Date, Open, High, Low, Close, Volume. -/
structure Bar where
  date : Date
  opn : ℚ
  high : ℚ
  low : ℚ
  close : ℚ
  volume : Int
deriving DecidableEq, Inhabited

/-- One row of the `chart_data` frame built on lines 79-86 of the
source: columns time, open, high, low, close, volume. -/
structure ChartPoint where
  time : Date
  opn : ℚ
  high : ℚ
  low : ℚ
  close : ℚ
  volume : Int
deriving DecidableEq, Inhabited

/-- The dict returned by `calculate_pivot_points`. -/
structure PivotPoints where
  P : ℚ
  R1 : ℚ
  R2 : ℚ
  R3 : ℚ
  S1 : ℚ
  S2 : ℚ
  S3 : ℚ
deriving DecidableEq, Inhabited

/-- The quintuple returned by `load_chart_data` on success
(`chart_data, current_price, volume, daily_change, pivot_points`).
The all-`None` quintuple of the source is modelled as `none` at the
`Option ChartBundle` level. -/
structure ChartBundle where
  chart_data : List ChartPoint
  current_price : ℚ
  volume : Int
  daily_change : ℚ
  pivot_points : Option PivotPoints
deriving DecidableEq, Inhabited

/-- Round a rational to the nearest integer, ties to the even
integer: Python's builtin `round` with `ndigits = 0`. -/
def roundHalfEven (x : ℚ) : ℤ :=
  if x - ⌊x⌋ < 1 / 2 then ⌊x⌋
  else if 1 / 2 < x - ⌊x⌋ then ⌊x⌋ + 1
  else if ⌊x⌋ % 2 = 0 then ⌊x⌋ else ⌊x⌋ + 1

/-- Python's `round(x, 2)`: round to two decimal places. -/
def round2 (x : ℚ) : ℚ := (roundHalfEven (x * 100) : ℚ) / 100

/-- Lines 33-51 of the source: classic floor-trader pivot levels from
the previous month's high, low and close, each rounded to 2 places. -/
def calculate_pivot_points (high low close : ℚ) : PivotPoints :=
  let pivot := (high + low + close) / 3
  let r1 := 2 * pivot - low
  let s1 := 2 * pivot - high
  let r2 := pivot + (high - low)
  let s2 := pivot - (high - low)
  let r3 := high + 2 * (pivot - low)
  let s3 := low - 2 * (high - pivot)
  { P := round2 pivot
    R1 := round2 r1
    R2 := round2 r2
    R3 := round2 r3
    S1 := round2 s1
    S2 := round2 s2
    S3 := round2 s3 }

/-- Line 66 of the source: `(datetime.now().replace(day=1) -
timedelta(days=1)).strftime('%Y-%m')` — the first day of the current
month minus one day lands on the last day of the previous month, so
its year-month is `(year - 1, 12)` when the current month is January
and `(year, month - 1)` otherwise. -/
def prev_month_ym (today : Date) : Nat × Nat :=
  if today.month = 1 then (today.year - 1, 12) else (today.year, today.month - 1)

/-- Line 67 of the source: the rows of `df` whose `Date` formats to
the previous month's `%Y-%m` string, i.e. whose (year, month) pair
equals `prev_month_ym today`; row order of `df` is preserved. -/
def prev_month_data (df : List Bar) (today : Date) : List Bar :=
  df.filter fun b =>
    b.date.year == (prev_month_ym today).1 && b.date.month == (prev_month_ym today).2

/-- `prev_month_data['High'].max()`: maximum of a non-empty column. -/
def colMax : List ℚ → ℚ
  | [] => 0
  | x :: r => r.foldl max x

/-- `prev_month_data['Low'].min()`: minimum of a non-empty column. -/
def colMin : List ℚ → ℚ
  | [] => 0
  | x :: r => r.foldl min x

/-- Maximum of the `High` column of a set of rows (line 70). -/
def maxHigh (l : List Bar) : ℚ := colMax (l.map fun b => b.high)

/-- Minimum of the `Low` column of a set of rows (line 71). -/
def minLow (l : List Bar) : ℚ := colMin (l.map fun b => b.low)

/-- Lines 69-77 of the source: when the previous-month subset is
non-empty, pivot points from its max High, min Low and last Close
(`iloc[-1]` of the filtered frame); otherwise `None`. -/
def compute_pivots (df : List Bar) (today : Date) : Option PivotPoints :=
  let subset := prev_month_data df today
  if subset.isEmpty then none
  else
    some (calculate_pivot_points (maxHigh subset) (minLow subset)
      ((subset.getLastD default).close))

/-- Lines 79-86 of the source: the `chart_data` frame is column-wise
copied from `df`, row `i` from row `i`. -/
def toChartPoint (b : Bar) : ChartPoint :=
  { time := b.date
    opn := b.opn
    high := b.high
    low := b.low
    close := b.close
    volume := b.volume }

/-- Lines 53-97 of the source.  The fetch (`yf.download`) is passed in
as an `Except`: an `error` models the call raising, which the
surrounding `try/except` catches and converts to the all-`None`
quintuple (`none` here).  An empty frame returns `none` via the
`if not df.empty` guard (line 63 / line 94).  A one-row frame reaches
`df['Close'].iloc[-2]` (line 90), raising `IndexError`, which the same
`except` catches — modelled by the `df.length < 2` branch. -/
def load_chart_data (fetch : Except String (List Bar)) (today : Date) :
    Option ChartBundle :=
  match fetch with
  | Except.error _ => none
  | Except.ok df =>
    if df.isEmpty then none
    else
      let pivot_points := compute_pivots df today
      let chart_data := df.map toChartPoint
      if df.length < 2 then none
      else
        let current_price := (df.getLastD default).close
        let prev_price := (df.getD (df.length - 2) default).close
        let daily_change := (current_price - prev_price) / prev_price * 100
        some
          { chart_data := chart_data
            current_price := current_price
            volume := (df.getLastD default).volume
            daily_change := daily_change
            pivot_points := pivot_points }

/-! ### Concrete inputs used by witnesses and counterexamples -/

/-- A current date used by witnesses: 2024-03-10. -/
def todayMar : Date := ⟨2024, 3, 10⟩

/-- A March 2024 bar (close 10). -/
def barA : Bar := ⟨⟨2024, 3, 4⟩, 10, 12, 9, 10, 100⟩

/-- A March 2024 bar (close 12). -/
def barB : Bar := ⟨⟨2024, 3, 5⟩, 11, 13, 10, 12, 120⟩

/-- A two-bar March 2024 series: relative to `todayMar` its
previous-month (February) subset is empty. -/
def dfMarch : List Bar := [barA, barB]

/-- A January 2024 bar. -/
def barJan : Bar := ⟨⟨2024, 1, 15⟩, 5, 6, 4, 5, 50⟩

/-- A February 2024 bar (first of the month). -/
def barFeb1 : Bar := ⟨⟨2024, 2, 1⟩, 7, 9, 6, 8, 70⟩

/-- A February 2024 bar (last of the month). -/
def barFeb29 : Bar := ⟨⟨2024, 2, 29⟩, 8, 10, 7, 9, 80⟩

/-- A date-sorted series spanning January through March 2024: relative
to `todayMar` its previous-month subset is `[barFeb1, barFeb29]`. -/
def dfYtd : List Bar := [barJan, barFeb1, barFeb29, barB]

/-- A bar with negative close −1, used to refute the percent-change
sign equivalence of claim C6. -/
def barNeg1 : Bar := ⟨⟨2024, 3, 4⟩, 1, 1, 1, -1, 10⟩

/-- A bar with negative close −2, used to refute the percent-change
sign equivalence of claim C6. -/
def barNeg2 : Bar := ⟨⟨2024, 3, 5⟩, 1, 1, 1, -2, 10⟩

/-! ### Helper lemmas about rounding -/

theorem roundHalfEven_of_lt (x : ℚ) (f : ℤ) (hf : ⌊x⌋ = f) (h : x - f < 1 / 2) :
    roundHalfEven x = f := by
  subst hf
  unfold roundHalfEven
  rw [if_pos h]

theorem roundHalfEven_of_gt (x : ℚ) (f : ℤ) (hf : ⌊x⌋ = f) (h : 1 / 2 < x - f) :
    roundHalfEven x = f + 1 := by
  subst hf
  unfold roundHalfEven
  rw [if_neg (by linarith), if_pos h]

theorem round2_intCast (n : ℤ) : round2 (n : ℚ) = (n : ℚ) := by
  unfold round2
  rw [roundHalfEven_of_lt ((n : ℚ) * 100) (n * 100)]
  · push_cast
    ring
  · exact_mod_cast Int.floor_intCast (n * 100)
  · norm_num

theorem le_roundHalfEven (x : ℚ) : ⌊x⌋ ≤ roundHalfEven x := by
  unfold roundHalfEven
  split_ifs <;> omega

theorem roundHalfEven_le (x : ℚ) : roundHalfEven x ≤ ⌊x⌋ + 1 := by
  unfold roundHalfEven
  split_ifs <;> omega

theorem roundHalfEven_mono {x y : ℚ} (hxy : x ≤ y) :
    roundHalfEven x ≤ roundHalfEven y := by
  have hf : ⌊x⌋ ≤ ⌊y⌋ := Int.floor_mono hxy
  rcases lt_or_eq_of_le hf with hlt | heq
  · calc roundHalfEven x ≤ ⌊x⌋ + 1 := roundHalfEven_le x
      _ ≤ ⌊y⌋ := by omega
      _ ≤ roundHalfEven y := le_roundHalfEven y
  · unfold roundHalfEven
    rw [← heq]
    have hfr : x - ⌊x⌋ ≤ y - ⌊x⌋ := by linarith
    split_ifs <;> first | omega | linarith

theorem round2_mono {x y : ℚ} (hxy : x ≤ y) : round2 x ≤ round2 y := by
  unfold round2
  have h : roundHalfEven (x * 100) ≤ roundHalfEven (y * 100) :=
    roundHalfEven_mono (by linarith)
  have h2 : ((roundHalfEven (x * 100) : ℤ) : ℚ) ≤ (roundHalfEven (y * 100) : ℚ) := by
    exact_mod_cast h
  linarith

theorem abs_sub_roundHalfEven_le (x : ℚ) : |x - (roundHalfEven x : ℚ)| ≤ 1 / 2 := by
  have h1 : (⌊x⌋ : ℚ) ≤ x := Int.floor_le x
  have h2 : x < ⌊x⌋ + 1 := Int.lt_floor_add_one x
  unfold roundHalfEven
  split_ifs with c1 c2 c3 <;> rw [abs_le] <;> push_cast <;> constructor <;> linarith

/-- `round2 x` is an integer multiple of `1/100` within `1/200` of `x`:
it is `x` rounded to exactly two decimal places. -/
theorem round2_resolution (x : ℚ) :
    (∃ n : ℤ, round2 x = (n : ℚ) / 100) ∧ |x - round2 x| ≤ 1 / 200 := by
  constructor
  · exact ⟨roundHalfEven (x * 100), rfl⟩
  · have h := abs_sub_roundHalfEven_le (x * 100)
    unfold round2
    rw [abs_le] at h ⊢
    constructor <;> [linarith [h.1]; linarith [h.2]]

/-! ### Helper lemmas about lists, columns and dates -/

theorem dateLe_refl (a : Date) : dateLe a a :=
  Or.inr ⟨rfl, Or.inr ⟨rfl, le_refl _⟩⟩

theorem le_foldl_max (l : List ℚ) (a : ℚ) : a ≤ l.foldl max a := by
  induction l generalizing a with
  | nil => simp
  | cons x r ih =>
    simp only [List.foldl_cons]
    exact le_trans (le_max_left a x) (ih (max a x))

theorem mem_le_foldl_max (l : List ℚ) (a : ℚ) : ∀ b ∈ l, b ≤ l.foldl max a := by
  induction l generalizing a with
  | nil => simp
  | cons x r ih =>
    intro b hb
    rcases List.mem_cons.mp hb with rfl | hb
    · simp only [List.foldl_cons]
      exact le_trans (le_max_right a b) (le_foldl_max r (max a b))
    · simpa using ih (max a x) b hb

theorem foldl_max_mem (l : List ℚ) (a : ℚ) :
    l.foldl max a = a ∨ l.foldl max a ∈ l := by
  induction l generalizing a with
  | nil => left; rfl
  | cons x r ih =>
    simp only [List.foldl_cons]
    rcases ih (max a x) with h | h
    · rcases max_choice a x with hm | hm
      · left; rw [h, hm]
      · right; rw [h, hm]; exact List.mem_cons_self x r
    · right; exact List.mem_cons_of_mem x h

theorem foldl_min_le (l : List ℚ) (a : ℚ) : l.foldl min a ≤ a := by
  induction l generalizing a with
  | nil => simp
  | cons x r ih =>
    simp only [List.foldl_cons]
    exact le_trans (ih (min a x)) (min_le_left a x)

theorem foldl_min_le_mem (l : List ℚ) (a : ℚ) : ∀ b ∈ l, l.foldl min a ≤ b := by
  induction l generalizing a with
  | nil => simp
  | cons x r ih =>
    intro b hb
    rcases List.mem_cons.mp hb with rfl | hb
    · simp only [List.foldl_cons]
      exact le_trans (foldl_min_le r (min a b)) (min_le_right a b)
    · simpa using ih (min a x) b hb

theorem foldl_min_mem (l : List ℚ) (a : ℚ) :
    l.foldl min a = a ∨ l.foldl min a ∈ l := by
  induction l generalizing a with
  | nil => left; rfl
  | cons x r ih =>
    simp only [List.foldl_cons]
    rcases ih (min a x) with h | h
    · rcases min_choice a x with hm | hm
      · left; rw [h, hm]
      · right; rw [h, hm]; exact List.mem_cons_self x r
    · right; exact List.mem_cons_of_mem x h

theorem le_colMax (l : List ℚ) : ∀ b ∈ l, b ≤ colMax l := by
  cases l with
  | nil => simp
  | cons x r =>
    intro b hb
    simp only [colMax]
    rcases List.mem_cons.mp hb with rfl | hb
    · exact le_foldl_max r b
    · exact mem_le_foldl_max r x b hb

theorem colMax_mem (l : List ℚ) (h : l ≠ []) : colMax l ∈ l := by
  cases l with
  | nil => exact absurd rfl h
  | cons x r =>
    simp only [colMax]
    rcases foldl_max_mem r x with h1 | h1
    · rw [h1]; exact List.mem_cons_self _ _
    · exact List.mem_cons_of_mem x h1

theorem colMin_le (l : List ℚ) : ∀ b ∈ l, colMin l ≤ b := by
  cases l with
  | nil => simp
  | cons x r =>
    intro b hb
    simp only [colMin]
    rcases List.mem_cons.mp hb with rfl | hb
    · exact foldl_min_le r b
    · exact foldl_min_le_mem r x b hb

theorem colMin_mem (l : List ℚ) (h : l ≠ []) : colMin l ∈ l := by
  cases l with
  | nil => exact absurd rfl h
  | cons x r =>
    simp only [colMin]
    rcases foldl_min_mem r x with h1 | h1
    · rw [h1]; exact List.mem_cons_self _ _
    · exact List.mem_cons_of_mem x h1

theorem getLastD_mem {α : Type} (l : List α) (d : α) (h : l ≠ []) :
    l.getLastD d ∈ l := by
  induction l generalizing d with
  | nil => exact absurd rfl h
  | cons x r ih =>
    cases r with
    | nil => simp [List.getLastD]
    | cons y s =>
      have : (y :: s).getLastD x ∈ y :: s := ih x (by simp)
      simp only [List.getLastD]
      exact List.mem_cons_of_mem x this

theorem pairwise_dateLe_getLastD_aux (l : List Bar) (d : Bar)
    (hp : l.Pairwise fun a b => dateLe a.date b.date) :
    ∀ b ∈ l, dateLe b.date ((l.getLastD d).date) := by
  induction l generalizing d with
  | nil => simp
  | cons x r ih =>
    intro b hb
    rcases List.pairwise_cons.mp hp with ⟨hx, hr⟩
    rcases List.mem_cons.mp hb with rfl | hb
    · cases r with
      | nil => exact dateLe_refl _
      | cons y s =>
        have hmem : (y :: s).getLastD b ∈ y :: s := getLastD_mem _ _ (by simp)
        simp only [List.getLastD]
        exact hx _ hmem
    · cases r with
      | nil => simp at hb
      | cons y s =>
        simp only [List.getLastD]
        exact ih x hr b hb

theorem pairwise_dateLe_getLastD (l : List Bar)
    (hp : l.Pairwise fun a b => dateLe a.date b.date) :
    ∀ b ∈ l, dateLe b.date ((l.getLastD default).date) :=
  pairwise_dateLe_getLastD_aux l default hp

/-! ### Evaluation lemmas for `load_chart_data` -/

theorem load_chart_data_ok (df : List Bar) (today : Date) (h2 : 2 ≤ df.length) :
    load_chart_data (Except.ok df) today = some
      { chart_data := df.map toChartPoint
        current_price := (df.getLastD default).close
        volume := (df.getLastD default).volume
        daily_change := ((df.getLastD default).close -
            (df.getD (df.length - 2) default).close) /
          (df.getD (df.length - 2) default).close * 100
        pivot_points := compute_pivots df today } := by
  have hne : df.isEmpty = false := by
    cases df with
    | nil => simp at h2
    | cons x r => rfl
  simp only [load_chart_data, hne, Bool.false_eq_true, if_false,
    if_neg (Nat.not_lt.mpr h2)]

theorem load_chart_data_short (df : List Bar) (today : Date) (h2 : df.length < 2) :
    load_chart_data (Except.ok df) today = none := by
  cases df with
  | nil => rfl
  | cons x r =>
    cases r with
    | nil => rfl
    | cons y s =>
      simp only [List.length_cons] at h2
      omega

/-! ### Claim theorems -/

/-- Claim C9: for the specific input high = 110, low = 100, close = 105,
`calculate_pivot_points` returns exactly P = 105, R1 = 110, S1 = 100,
R2 = 115, S2 = 95, R3 = 120, S3 = 90. -/
theorem c9_literal_example : calculate_pivot_points 110 100 105 =
    { P := 105, R1 := 110, R2 := 115, R3 := 120, S1 := 100, S2 := 95, S3 := 90 } := by
  have h : ∀ n : ℤ, round2 ((n : ℤ) : ℚ) = (n : ℚ) := round2_intCast
  have h105 : round2 (105 : ℚ) = 105 := by have := h 105; norm_num at this; exact this
  have h110 : round2 (110 : ℚ) = 110 := by have := h 110; norm_num at this; exact this
  have h115 : round2 (115 : ℚ) = 115 := by have := h 115; norm_num at this; exact this
  have h120 : round2 (120 : ℚ) = 120 := by have := h 120; norm_num at this; exact this
  have h100 : round2 (100 : ℚ) = 100 := by have := h 100; norm_num at this; exact this
  have h95 : round2 (95 : ℚ) = 95 := by have := h 95; norm_num at this; exact this
  have h90 : round2 (90 : ℚ) = 90 := by have := h 90; norm_num at this; exact this
  simp only [calculate_pivot_points]
  norm_num [h105, h110, h115, h120, h100, h95, h90]

/-- Claim C8: each of the seven levels returned by `calculate_pivot_points`
equals its unrounded formula value (P = (high+low+close)/3, R1 = 2P−low,
S1 = 2P−high, R2 = P+(high−low), S2 = P−(high−low), R3 = high+2(P−low),
S3 = low−2(high−P)) rounded to exactly two decimal places by `round2`, the
embedding of Python's `round(·, 2)` (round half to even, the platform
default rounding of the source): `round2 x` is an integer multiple of
1/100 lying within 1/200 of the unrounded value. -/
theorem c8_levels_are_rounded_formulas (high low close : ℚ) :
    calculate_pivot_points high low close =
      { P := round2 ((high + low + close) / 3)
        R1 := round2 (2 * ((high + low + close) / 3) - low)
        R2 := round2 ((high + low + close) / 3 + (high - low))
        R3 := round2 (high + 2 * ((high + low + close) / 3 - low))
        S1 := round2 (2 * ((high + low + close) / 3) - high)
        S2 := round2 ((high + low + close) / 3 - (high - low))
        S3 := round2 (low - 2 * (high - (high + low + close) / 3)) }
    ∧ ∀ x : ℚ, (∃ n : ℤ, round2 x = (n : ℚ) / 100) ∧ |x - round2 x| ≤ 1 / 200 :=
  ⟨rfl, round2_resolution⟩

/-- Claim C1 is false as stated: high = 10 ≥ low = 9 with close = 1 is a
concrete input where the computed levels violate the claimed ordering
(P rounds to 6.67 while R1 rounds to 4.33, so P ≤ R1 fails). -/
theorem c1_counterexample :
    (9 : ℚ) ≤ 10 ∧
      ¬ ((calculate_pivot_points 10 9 1).S3 ≤ (calculate_pivot_points 10 9 1).S2 ∧
         (calculate_pivot_points 10 9 1).S2 ≤ (calculate_pivot_points 10 9 1).S1 ∧
         (calculate_pivot_points 10 9 1).S1 ≤ (calculate_pivot_points 10 9 1).P ∧
         (calculate_pivot_points 10 9 1).P ≤ (calculate_pivot_points 10 9 1).R1 ∧
         (calculate_pivot_points 10 9 1).R1 ≤ (calculate_pivot_points 10 9 1).R2 ∧
         (calculate_pivot_points 10 9 1).R2 ≤ (calculate_pivot_points 10 9 1).R3) := by
  have hP : (calculate_pivot_points 10 9 1).P = 667 / 100 := by
    simp only [calculate_pivot_points]
    rw [show ((10 : ℚ) + 9 + 1) / 3 = 20 / 3 by norm_num]
    unfold round2
    rw [roundHalfEven_of_gt (20 / 3 * 100) 666 (by norm_num) (by norm_num)]
    norm_num
  have hR1 : (calculate_pivot_points 10 9 1).R1 = 433 / 100 := by
    simp only [calculate_pivot_points]
    rw [show 2 * (((10 : ℚ) + 9 + 1) / 3) - 9 = 13 / 3 by norm_num]
    unfold round2
    rw [roundHalfEven_of_lt (13 / 3 * 100) 433 (by norm_num) (by norm_num)]
    norm_num
  refine ⟨by norm_num, fun h => ?_⟩
  have hPR := h.2.2.2.1
  rw [hP, hR1] at hPR
  norm_num at hPR

/-- Claim C1 (amended): whenever high ≥ low and the close lies between them
(low ≤ close ≤ high), the seven levels returned by `calculate_pivot_points`
satisfy S3 ≤ S2 ≤ S1 ≤ P ≤ R1 ≤ R2 ≤ R3. -/
theorem c1_pivot_ordering (high low close : ℚ)
    (h1 : low ≤ close) (h2 : close ≤ high) :
    (calculate_pivot_points high low close).S3 ≤ (calculate_pivot_points high low close).S2 ∧
    (calculate_pivot_points high low close).S2 ≤ (calculate_pivot_points high low close).S1 ∧
    (calculate_pivot_points high low close).S1 ≤ (calculate_pivot_points high low close).P ∧
    (calculate_pivot_points high low close).P ≤ (calculate_pivot_points high low close).R1 ∧
    (calculate_pivot_points high low close).R1 ≤ (calculate_pivot_points high low close).R2 ∧
    (calculate_pivot_points high low close).R2 ≤ (calculate_pivot_points high low close).R3 :=
  ⟨round2_mono (by linarith), round2_mono (by linarith), round2_mono (by linarith),
   round2_mono (by linarith), round2_mono (by linarith), round2_mono (by linarith)⟩

/-- Witness for C1 at high = 110, low = 100, close = 105. -/
theorem c1_pivot_ordering_witness :
    (100 : ℚ) ≤ 105 ∧ (105 : ℚ) ≤ 110 ∧
      ((calculate_pivot_points 110 100 105).S3 ≤ (calculate_pivot_points 110 100 105).S2 ∧
       (calculate_pivot_points 110 100 105).S2 ≤ (calculate_pivot_points 110 100 105).S1 ∧
       (calculate_pivot_points 110 100 105).S1 ≤ (calculate_pivot_points 110 100 105).P ∧
       (calculate_pivot_points 110 100 105).P ≤ (calculate_pivot_points 110 100 105).R1 ∧
       (calculate_pivot_points 110 100 105).R1 ≤ (calculate_pivot_points 110 100 105).R2 ∧
       (calculate_pivot_points 110 100 105).R2 ≤ (calculate_pivot_points 110 100 105).R3) :=
  ⟨by norm_num, by norm_num, c1_pivot_ordering 110 100 105 (by norm_num) (by norm_num)⟩

/-- Claim C3: any failure of the market-data fetch (modelled by
`Except.error`) is converted by `load_chart_data` into the "no data"
result `none`; `load_chart_data` is total in the embedding, so no
exception reaches its caller and one failing symbol cannot abort the
processing of other symbols. -/
theorem c3_fetch_error_caught (e : String) (today : Date) :
    load_chart_data (Except.error e) today = none := rfl

/-- Claim C4: a fetched series with zero bars and a fetched series with
exactly one bar both make `load_chart_data` return the "no data" result
`none` rather than a partial bundle: the empty frame fails the
`df.empty` guard, and the one-bar frame makes `iloc[-2]` fail, which
the handler converts to the same result. -/
theorem c4_insufficient_data (b : Bar) (today : Date) :
    load_chart_data (Except.ok []) today = none ∧
    load_chart_data (Except.ok [b]) today = none :=
  ⟨rfl, rfl⟩

/-- Claim C10: the three failure modes of the assembler — the fetch
raising, the fetch returning an empty series, and a one-bar series —
all produce the identical result `none` (the all-`None` quintuple of
the source), so a caller cannot distinguish a fetch failure from
insufficient data. -/
theorem c10_failures_indistinguishable (e : String) (b : Bar) (today : Date) :
    load_chart_data (Except.error e) today = none ∧
    load_chart_data (Except.ok []) today = none ∧
    load_chart_data (Except.ok [b]) today = none :=
  ⟨rfl, rfl, rfl⟩

/-- Claim C5: for a fetched series with at least two bars whose
previous-calendar-month subset is empty, `load_chart_data` returns a
bundle with `pivot_points` absent while the chart series, latest
price, latest volume and percent change are populated from the full
fetched window; the empty subset is not an error. -/
theorem c5_no_prior_month (df : List Bar) (today : Date)
    (h2 : 2 ≤ df.length) (hempty : prev_month_data df today = []) :
    load_chart_data (Except.ok df) today = some
      { chart_data := df.map toChartPoint
        current_price := (df.getLastD default).close
        volume := (df.getLastD default).volume
        daily_change := ((df.getLastD default).close -
            (df.getD (df.length - 2) default).close) /
          (df.getD (df.length - 2) default).close * 100
        pivot_points := none } := by
  rw [load_chart_data_ok df today h2]
  have hpiv : compute_pivots df today = none := by
    simp only [compute_pivots, hempty, List.isEmpty_nil, if_true]
  rw [hpiv]

/-- Witness for C5 on the all-March two-bar series `dfMarch` with
current date `todayMar`. -/
theorem c5_no_prior_month_witness :
    2 ≤ dfMarch.length ∧ prev_month_data dfMarch todayMar = [] ∧
    load_chart_data (Except.ok dfMarch) todayMar = some
      { chart_data := dfMarch.map toChartPoint
        current_price := (dfMarch.getLastD default).close
        volume := (dfMarch.getLastD default).volume
        daily_change := ((dfMarch.getLastD default).close -
            (dfMarch.getD (dfMarch.length - 2) default).close) /
          (dfMarch.getD (dfMarch.length - 2) default).close * 100
        pivot_points := none } :=
  ⟨by decide, by decide, c5_no_prior_month dfMarch todayMar (by decide) (by decide)⟩

/-- The sign of `(c - p) / p * 100` matches the comparison of `c`
against `p` when `p` is positive. -/
theorem percent_sign_iff (p c : ℚ) (hp : 0 < p) :
    0 ≤ (c - p) / p * 100 ↔ p ≤ c := by
  rw [div_mul_eq_mul_div, le_div_iff₀ hp, zero_mul]
  constructor <;> intro h <;> nlinarith

/-- Claim C6 is false as stated: for the two-bar series with closes −1
then −2 (and current date 2024-03-10), the percent change computed by
`load_chart_data` is ((−2) − (−1)) / (−1) · 100 = 100 ≥ 0 although the
last close −2 is strictly below the second-to-last close −1, so the
claimed sign equivalence fails. -/
theorem c6_counterexample :
    load_chart_data (Except.ok [barNeg1, barNeg2]) todayMar = some
      { chart_data := [toChartPoint barNeg1, toChartPoint barNeg2]
        current_price := -2
        volume := 10
        daily_change := 100
        pivot_points := none }
    ∧ ¬ ((0 : ℚ) ≤ 100 ↔
          (([barNeg1, barNeg2].getD ([barNeg1, barNeg2].length - 2) default).close ≤
            ([barNeg1, barNeg2].getLastD default).close)) := by
  constructor
  · rw [load_chart_data_ok [barNeg1, barNeg2] todayMar (by decide)]
    have hpiv : compute_pivots [barNeg1, barNeg2] todayMar = none := by
      simp only [compute_pivots]
      rw [if_pos (by decide)]
    rw [hpiv]
    norm_num [barNeg1, barNeg2, toChartPoint, List.getLastD, List.getD]
  · intro h
    have h2 := h.mp (by norm_num)
    norm_num [barNeg1, barNeg2, List.getLastD, List.getD] at h2

/-- Claim C6 (amended): for every series with at least two bars whose
second-to-last close is positive, the percent change returned by
`load_chart_data` equals (last close − second-to-last close) /
second-to-last close · 100, and it is non-negative exactly when the
last close is at least the second-to-last close. -/
theorem c6_percent_change (df : List Bar) (today : Date)
    (h2 : 2 ≤ df.length)
    (hpos : 0 < (df.getD (df.length - 2) default).close) :
    ∃ b : ChartBundle,
      load_chart_data (Except.ok df) today = some b ∧
      b.daily_change = ((df.getLastD default).close -
          (df.getD (df.length - 2) default).close) /
        (df.getD (df.length - 2) default).close * 100 ∧
      (0 ≤ b.daily_change ↔
        (df.getD (df.length - 2) default).close ≤ (df.getLastD default).close) :=
  ⟨_, load_chart_data_ok df today h2, rfl,
    percent_sign_iff (df.getD (df.length - 2) default).close
      (df.getLastD default).close hpos⟩

/-- Witness for C6 on `dfMarch` (closes 10 then 12) with current date
`todayMar`. -/
theorem c6_percent_change_witness :
    2 ≤ dfMarch.length ∧
    0 < (dfMarch.getD (dfMarch.length - 2) default).close ∧
    ∃ b : ChartBundle,
      load_chart_data (Except.ok dfMarch) todayMar = some b ∧
      b.daily_change = ((dfMarch.getLastD default).close -
          (dfMarch.getD (dfMarch.length - 2) default).close) /
        (dfMarch.getD (dfMarch.length - 2) default).close * 100 ∧
      (0 ≤ b.daily_change ↔
        (dfMarch.getD (dfMarch.length - 2) default).close ≤
          (dfMarch.getLastD default).close) :=
  ⟨by decide, by norm_num [dfMarch, barA, List.getD],
    c6_percent_change dfMarch todayMar (by decide)
      (by norm_num [dfMarch, barA, List.getD])⟩

/-- Claim C7: for every non-empty series, the normalized chart series
(`df.map toChartPoint`, the embedding of lines 79-86) has exactly the
input's length, entry i of the output is derived from entry i of the
input, and any bundle `load_chart_data` returns carries that series
together with the last bar's close and volume as latest price and
latest volume. -/
theorem c7_normalizer (df : List Bar) (today : Date) (_hne : df ≠ []) :
    (df.map toChartPoint).length = df.length
    ∧ (∀ i, i < df.length →
        (df.map toChartPoint).getD i default = toChartPoint (df.getD i default))
    ∧ ∀ b : ChartBundle, load_chart_data (Except.ok df) today = some b →
        b.chart_data = df.map toChartPoint
        ∧ b.current_price = (df.getLastD default).close
        ∧ b.volume = (df.getLastD default).volume := by
  refine ⟨List.length_map df toChartPoint, ?_, ?_⟩
  · intro i hi
    rw [List.getD_eq_getElem?_getD, List.getD_eq_getElem?_getD, List.getElem?_map,
      List.getElem?_eq_getElem hi]
    rfl
  · intro b hb
    rcases Nat.lt_or_ge df.length 2 with hlt | hge
    · rw [load_chart_data_short df today hlt] at hb
      cases hb
    · rw [load_chart_data_ok df today hge] at hb
      injection hb with hb
      subst hb
      exact ⟨rfl, rfl, rfl⟩

/-- Witness for C7 on the two-bar series `dfMarch`. -/
theorem c7_normalizer_witness :
    dfMarch ≠ [] ∧
    ((dfMarch.map toChartPoint).length = dfMarch.length
    ∧ (∀ i, i < dfMarch.length →
        (dfMarch.map toChartPoint).getD i default = toChartPoint (dfMarch.getD i default))
    ∧ ∀ b : ChartBundle, load_chart_data (Except.ok dfMarch) todayMar = some b →
        b.chart_data = dfMarch.map toChartPoint
        ∧ b.current_price = (dfMarch.getLastD default).close
        ∧ b.volume = (dfMarch.getLastD default).volume) :=
  ⟨by decide, c7_normalizer dfMarch todayMar (by decide)⟩

/-- Claim C2: the assembler's previous-month subset contains exactly the
bars of `df` whose (year, month) equals the previous calendar month of
the current date (January rolling over to December of the prior year);
when the subset is non-empty the pivot calculator is invoked on the
maximum High of the subset, the minimum Low of the subset, and the
Close of the subset's last bar, which for a date-sorted input is the
latest bar of the subset by date. -/
theorem c2_prev_month_partition (df : List Bar) (today : Date)
    (hsorted : df.Pairwise fun a b => dateLe a.date b.date)
    (hne : prev_month_data df today ≠ []) :
    (∀ b : Bar, b ∈ prev_month_data df today ↔
        b ∈ df ∧ (b.date.year, b.date.month) = prev_month_ym today)
    ∧ (today.month = 1 → prev_month_ym today = (today.year - 1, 12))
    ∧ (2 ≤ today.month → prev_month_ym today = (today.year, today.month - 1))
    ∧ (∀ b ∈ prev_month_data df today, b.high ≤ maxHigh (prev_month_data df today))
    ∧ (∃ b ∈ prev_month_data df today, maxHigh (prev_month_data df today) = b.high)
    ∧ (∀ b ∈ prev_month_data df today, minLow (prev_month_data df today) ≤ b.low)
    ∧ (∃ b ∈ prev_month_data df today, minLow (prev_month_data df today) = b.low)
    ∧ (prev_month_data df today).getLastD default ∈ prev_month_data df today
    ∧ (∀ b ∈ prev_month_data df today,
        dateLe b.date (((prev_month_data df today).getLastD default).date))
    ∧ compute_pivots df today = some (calculate_pivot_points
        (maxHigh (prev_month_data df today))
        (minLow (prev_month_data df today))
        (((prev_month_data df today).getLastD default).close)) := by
  refine ⟨?_, ?_, ?_, ?_, ?_, ?_, ?_, ?_, ?_, ?_⟩
  · intro b
    simp [prev_month_data, List.mem_filter, Prod.ext_iff]
  · intro h
    simp [prev_month_ym, h]
  · intro h
    have h1 : today.month ≠ 1 := by omega
    simp [prev_month_ym, h1]
  · intro b hb
    exact le_colMax _ _ (List.mem_map_of_mem Bar.high hb)
  · have hmap : (prev_month_data df today).map Bar.high ≠ [] := by
      simpa [List.map_eq_nil_iff] using hne
    obtain ⟨b, hb, hbeq⟩ := List.mem_map.mp (colMax_mem _ hmap)
    exact ⟨b, hb, hbeq.symm⟩
  · intro b hb
    exact colMin_le _ _ (List.mem_map_of_mem Bar.low hb)
  · have hmap : (prev_month_data df today).map Bar.low ≠ [] := by
      simpa [List.map_eq_nil_iff] using hne
    obtain ⟨b, hb, hbeq⟩ := List.mem_map.mp (colMin_mem _ hmap)
    exact ⟨b, hb, hbeq.symm⟩
  · exact getLastD_mem _ _ hne
  · exact pairwise_dateLe_getLastD _
      (List.Pairwise.sublist (List.filter_sublist df) hsorted)
  · simp only [compute_pivots]
    rw [if_neg (by simp [List.isEmpty_iff]; exact hne)]

/-- Witness for C2 on the sorted January-to-March series `dfYtd` with
current date `todayMar` (previous month February 2024). -/
theorem c2_prev_month_partition_witness :
    dfYtd.Pairwise (fun a b => dateLe a.date b.date) ∧
    prev_month_data dfYtd todayMar ≠ [] ∧
    ((∀ b : Bar, b ∈ prev_month_data dfYtd todayMar ↔
        b ∈ dfYtd ∧ (b.date.year, b.date.month) = prev_month_ym todayMar)
    ∧ (todayMar.month = 1 → prev_month_ym todayMar = (todayMar.year - 1, 12))
    ∧ (2 ≤ todayMar.month → prev_month_ym todayMar = (todayMar.year, todayMar.month - 1))
    ∧ (∀ b ∈ prev_month_data dfYtd todayMar, b.high ≤ maxHigh (prev_month_data dfYtd todayMar))
    ∧ (∃ b ∈ prev_month_data dfYtd todayMar, maxHigh (prev_month_data dfYtd todayMar) = b.high)
    ∧ (∀ b ∈ prev_month_data dfYtd todayMar, minLow (prev_month_data dfYtd todayMar) ≤ b.low)
    ∧ (∃ b ∈ prev_month_data dfYtd todayMar, minLow (prev_month_data dfYtd todayMar) = b.low)
    ∧ (prev_month_data dfYtd todayMar).getLastD default ∈ prev_month_data dfYtd todayMar
    ∧ (∀ b ∈ prev_month_data dfYtd todayMar,
        dateLe b.date (((prev_month_data dfYtd todayMar).getLastD default).date))
    ∧ compute_pivots dfYtd todayMar = some (calculate_pivot_points
        (maxHigh (prev_month_data dfYtd todayMar))
        (minLow (prev_month_data dfYtd todayMar))
        (((prev_month_data dfYtd todayMar).getLastD default).close))) :=
  ⟨by decide, by decide, c2_prev_month_partition dfYtd todayMar (by decide) (by decide)⟩
